import Mathlib

/-!
Shallow embedding of `src/Analog_Clock.py` (analog clock with weather and
date display) and proofs of the specification claims about it.

Modelling conventions:
* Colors are the Python tuples, embedded as lists of channel values.
* `datetime.now()` is an external input: each sampling is a `Now` record
  (fields `hour`, `minute`, `second`, `microsecond`, and the `strftime`
  result `formatted`, which is computed by the Python standard library,
  not by this repository).
* `requests.get` is an external input: a call either yields a response
  with a status code and a body, or raises a transport error
  (`FetchResult.error`).  Each call to `update_weather` emits one
  `NetEvent.httpGet` for the request it issues.
* Drawing is a trace of `DrawOp` values.  `__draw_circle` issues one
  anti-aliased filled circle (the pygame `aacircle` + `filled_circle`
  pair is one logical filled circle, recorded as `DrawOp.circle`).
  A pygame line whose endpoints the source computes from a center, an
  angle in degrees, and a radius via `cos`/`sin` is recorded with those
  parameters (`DrawOp.mark`, `DrawOp.handShadow`, `DrawOp.hand`): the
  trigonometric endpoint computation is pure library arithmetic on them.
* Exact rational arithmetic (`ℚ`) stands in for Python floats; every
  quantity involved (`x * 0.5`, `x * 6`, `microsecond / 1_000_000`) is
  exactly representable in binary floating point only up to rounding,
  but the claims are about the exact formulas the source writes.
-/

namespace AnalogClockRepo

/-- A color, as the Python tuple of channel values (RGB or RGBA). -/
abbrev Color := List ℕ

/-- One theme record of the `THEMES` dictionary in the source. -/
structure Theme where
  background : Color
  face_outer : Color
  face_middle : Color
  face_inner : Color
  hand_hour : Color
  hand_minute : Color
  hand_second : Color
  mark_color : Color
  shadow : Color
  text_color : Color
deriving DecidableEq, Repr

/-- `THEMES["light"]` from the source. -/
def THEMES_light : Theme where
  background := [225, 239, 240]
  face_outer := [45, 45, 45]
  face_middle := [229, 229, 229]
  face_inner := [255, 255, 255]
  hand_hour := [45, 45, 45]
  hand_minute := [45, 45, 45]
  hand_second := [255, 0, 0]
  mark_color := [45, 45, 45]
  shadow := [0, 0, 0, 50]
  text_color := [0, 0, 0]

/-- `THEMES["dark"]` from the source. -/
def THEMES_dark : Theme where
  background := [30, 30, 30]
  face_outer := [100, 100, 100]
  face_middle := [70, 70, 70]
  face_inner := [50, 50, 50]
  hand_hour := [255, 255, 255]
  hand_minute := [200, 200, 200]
  hand_second := [255, 69, 0]
  mark_color := [255, 255, 255]
  shadow := [0, 0, 0, 80]
  text_color := [255, 255, 255]

/-- One sampling of `datetime.now()`.  `formatted` is the result of
`now.strftime("%A, %B %d, %Y")`, produced by the Python standard
library. -/
structure Now where
  hour : ℕ
  minute : ℕ
  second : ℕ
  microsecond : ℕ
  formatted : String
deriving DecidableEq, Repr

/-- The outcome of one `requests.get` call: a response carrying a status
code and a body text, or a raised transport error. -/
inductive FetchResult where
  | response (status : ℕ) (text : String)
  | error
deriving DecidableEq, Repr

/-- The URL requested by `update_weather`. -/
def wttrURL : String := "https://wttr.in/?format=%t+%C"

/-- A network side effect: one outbound HTTP GET. -/
inductive NetEvent where
  | httpGet (url : String)
deriving DecidableEq, Repr

/-- Whitespace as stripped by Python `str.strip()` (the ASCII whitespace
characters; the bodies involved contain no other whitespace). -/
def isPySpace (c : Char) : Bool :=
  c = ' ' || c = '\t' || c = '\n' || c = '\x0d' || c = '\x0b' || c = '\x0c'

/-- Python `str.strip()`: remove leading and trailing whitespace. -/
def pyStrip (s : String) : String :=
  ⟨((s.data.dropWhile isPySpace).reverse.dropWhile isPySpace).reverse⟩

/-- The state of the `AnalogClock` object.  `current_date` is absent
until the first `update` in the Python source; it is initialised to `""`
here (the main loop always calls `update` before `draw`). -/
structure AnalogClock where
  size : ℚ
  position : ℤ × ℤ
  hour : ℕ
  minute : ℕ
  second : ℚ
  milliseconds : ℕ
  current_date : String
  weather : String
deriving DecidableEq, Repr

/-- `AnalogClock.update_weather`: issue the GET; on a 200 response store
the stripped body; on a non-200 response do nothing; on a raised error
store `"Weather unavailable"`.  The second component is the network
event of the call. -/
def AnalogClock.update_weather (c : AnalogClock) (r : FetchResult) :
    AnalogClock × List NetEvent :=
  (match r with
   | .response status text =>
       if status = 200 then { c with weather := pyStrip text } else c
   | .error => { c with weather := "Weather unavailable" },
   [NetEvent.httpGet wttrURL])

/-- `AnalogClock.__init__`: set the fields, set `weather` to
`"Fetching..."`, then call `update_weather` once. -/
def AnalogClock.init (size : ℚ) (position : ℤ × ℤ) (fetch : FetchResult) :
    AnalogClock × List NetEvent :=
  AnalogClock.update_weather
    { size := size
      position := position
      hour := 0
      minute := 0
      second := 0
      milliseconds := 0
      current_date := ""
      weather := "Fetching..." }
    fetch

/-- `AnalogClock.update`: recompute the time fields from the sampled
wall clock. -/
def AnalogClock.update (c : AnalogClock) (now : Now) : AnalogClock :=
  { c with
    hour := now.hour % 12
    minute := now.minute
    second := (now.second : ℚ) + (now.microsecond : ℚ) / 1000000
    current_date := now.formatted }

/-- `AnalogClock.get_theme`: dark between 18:00 and 06:00, else light.
`current_hour` is the freshly sampled `datetime.now().hour`. -/
def get_theme (current_hour : ℕ) : Theme :=
  if 18 ≤ current_hour ∨ current_hour < 6 then THEMES_dark else THEMES_light

/-- One drawing operation issued on the output surface. -/
inductive DrawOp where
  /-- `window.fill(color)`. -/
  | fill (color : Color)
  /-- The info panel: text rendered in `color`, blitted centered at
  `(centerX, centerY)`. -/
  | infoText (text : String) (color : Color) (centerX centerY : ℤ)
  /-- `__draw_circle`: an anti-aliased filled circle. -/
  | circle (center : ℤ × ℤ) (radius : ℚ) (color : Color)
  /-- One hour mark: a width-`width` line along the radial direction of
  `angleDeg` degrees between radii `rOuter` and `rInner` from `center`. -/
  | mark (center : ℤ × ℤ) (angleDeg rOuter rInner : ℚ) (width : ℕ) (color : Color)
  /-- A hand shadow: the radial segment of the hand of angle `angleDeg`
  degrees and length `length`, translated by `(offset, offset)` pixels. -/
  | handShadow (center : ℤ × ℤ) (angleDeg length : ℚ) (width : ℕ)
      (color : Color) (offset : ℤ)
  /-- A hand: a width-`width` radial segment from `center` of length
  `length` at `angleDeg` degrees (the source rotates by −90° so that 0°
  points to 12 o'clock). -/
  | hand (center : ℤ × ℤ) (angleDeg length : ℚ) (width : ℕ) (color : Color)
deriving DecidableEq, Repr

/-- `AnalogClock.__draw_circle` (one `aacircle` + `filled_circle` pair,
one logical filled circle). -/
def draw_circle (position : ℤ × ℤ) (size : ℚ) (color : Color) : List DrawOp :=
  [DrawOp.circle position size color]

/-- `AnalogClock.__draw_face`: outer, middle and inner circles. -/
def draw_face (c : AnalogClock) (theme : Theme) : List DrawOp :=
  draw_circle c.position c.size theme.face_outer ++
  draw_circle c.position (c.size - 30) theme.face_middle ++
  draw_circle c.position (c.size - 40) theme.face_inner

/-- `AnalogClock.__draw_hour_marks`: twelve marks at `i * 30` degrees
between radii `size - 20` and `size - 40`, width 5. -/
def draw_hour_marks (c : AnalogClock) (theme : Theme) : List DrawOp :=
  (List.range 12).map fun i =>
    DrawOp.mark c.position ((i : ℚ) * 30) (c.size - 20) (c.size - 40) 5
      theme.mark_color

/-- `AnalogClock.__draw_hand`: when `shadow` is set, first the shadow
segment at offset 5, then the hand itself. -/
def draw_hand (c : AnalogClock) (angle length : ℚ) (width : ℕ) (color : Color)
    (shadow : Bool) (theme : Theme) : List DrawOp :=
  (if shadow then [DrawOp.handShadow c.position angle length width theme.shadow 5]
   else []) ++
  [DrawOp.hand c.position angle length width color]

/-- `AnalogClock.__draw_info_panel`: render `"{current_date} | {weather}"`
in the theme text color, centered at `(position[0], 50)`. -/
def draw_info_panel (c : AnalogClock) (theme : Theme) : List DrawOp :=
  [DrawOp.infoText (c.current_date ++ " | " ++ c.weather) theme.text_color
    c.position.1 50]

/-- `AnalogClock.draw`: background, info panel, face, hour marks, the
three hands (each with a shadow), center cap.  `current_hour` is the
wall-clock hour sampled by `get_theme` inside `draw`.  The method never
assigns to any field of `self`, so the state is returned unchanged. -/
def AnalogClock.draw (c : AnalogClock) (current_hour : ℕ) :
    AnalogClock × List DrawOp :=
  let theme := get_theme current_hour
  (c,
   [DrawOp.fill theme.background] ++
   draw_info_panel c theme ++
   draw_face c theme ++
   draw_hour_marks c theme ++
   draw_hand c ((c.hour : ℚ) * 30 + (c.minute : ℚ) * 0.5) (c.size * 0.5) 8
     theme.hand_hour true theme ++
   draw_hand c ((c.minute : ℚ) * 6) (c.size * 0.7) 6 theme.hand_minute true theme ++
   draw_hand c (c.second * 6) (c.size * 0.9) 3 theme.hand_second true theme ++
   draw_circle c.position 10 theme.face_outer)

/-- One iteration of the main loop: `update()` then `draw(window)`.
The hour `get_theme` samples inside `draw` is the frame's `now.hour`.
Neither function performs any network call. -/
def loopStep (c : AnalogClock) (now : Now) :
    AnalogClock × List DrawOp × List NetEvent :=
  let c1 := c.update now
  let d := c1.draw now.hour
  (d.1, d.2, [])

/-- Run the main loop over a list of sampled frame times, collecting the
network events. -/
def runLoop (c : AnalogClock) : List Now → AnalogClock × List NetEvent
  | [] => (c, [])
  | now :: rest =>
    let s := loopStep c now
    let r := runLoop s.1 rest
    (r.1, s.2.2 ++ r.2)

/-- The whole program: construct the clock (which performs the single
weather fetch), then run the main loop. -/
def programRun (size : ℚ) (position : ℤ × ℤ) (fetch : FetchResult)
    (frames : List Now) : AnalogClock × List NetEvent :=
  let i := AnalogClock.init size position fetch
  let r := runLoop i.1 frames
  (r.1, i.2 ++ r.2)

/-- A concrete clock state, as constructed by the source
(`AnalogClock(250, (300, 300))`) when the startup fetch raises. -/
def sampleClock : AnalogClock :=
  (AnalogClock.init 250 (300, 300) FetchResult.error).1

/-- A concrete wall-clock sample for witnesses. -/
def now0 : Now :=
  { hour := 15, minute := 30, second := 42, microsecond := 123456
    formatted := "Sunday, March 23, 2025" }

/-- A second wall-clock sample: same second as `now0`, later microsecond. -/
def now1 : Now :=
  { hour := 15, minute := 30, second := 42, microsecond := 999999
    formatted := "Sunday, March 23, 2025" }

/-- One loop iteration changes neither the weather field. -/
theorem loopStep_weather (c : AnalogClock) (now : Now) :
    (loopStep c now).1.weather = c.weather := rfl

/-- The main loop never changes the weather field. -/
theorem runLoop_weather (c : AnalogClock) (frames : List Now) :
    (runLoop c frames).1.weather = c.weather := by
  induction frames generalizing c with
  | nil => rfl
  | cons now rest ih => exact (ih (loopStep c now).1).trans (loopStep_weather c now)

/-- The main loop performs no network calls. -/
theorem runLoop_events (c : AnalogClock) (frames : List Now) :
    (runLoop c frames).2 = [] := by
  induction frames generalizing c with
  | nil => rfl
  | cons now rest ih =>
    show [] ++ (runLoop (loopStep c now).1 rest).2 = []
    rw [List.nil_append, ih]

/-- Claim C1, counterexample: at the construction-time invocation of
`update_weather`, a response with status 500 (no exception raised)
leaves the weather field at `"Fetching..."`, not `"Weather unavailable"`
— refuting the claim that every non-200 status stores the fallback. -/
theorem update_weather_non200_fallback_cex :
    ((AnalogClock.init 250 (300, 300)
        (FetchResult.response 500 "Internal Server Error")).1).weather ≠
      "Weather unavailable" := by decide

/-- Claim C1 (amended): when the HTTP request raises a transport error,
the weather field afterwards equals exactly `"Weather unavailable"`;
when the request completes with a non-200 status, the weather field is
left unchanged. -/
theorem update_weather_failure_behavior (c : AnalogClock) (status : ℕ)
    (text : String) (h : status ≠ 200) :
    ((c.update_weather FetchResult.error).1).weather = "Weather unavailable" ∧
    ((c.update_weather (FetchResult.response status text)).1).weather =
      c.weather := by
  refine ⟨rfl, ?_⟩
  simp [AnalogClock.update_weather, h]

/-- Witness for the amended C1 at status 500. -/
theorem update_weather_failure_behavior_witness :
    (500 : ℕ) ≠ 200 ∧
    (((sampleClock.update_weather FetchResult.error).1).weather =
        "Weather unavailable" ∧
      ((sampleClock.update_weather
          (FetchResult.response 500 "Internal Server Error")).1).weather =
        sampleClock.weather) :=
  ⟨by decide,
   update_weather_failure_behavior sampleClock 500 "Internal Server Error"
     (by decide)⟩

/-- Claim C2: a response with a non-200 status and no exception leaves
the weather field unchanged; at construction it therefore remains
`"Fetching..."`, and it stays `"Fetching..."` for the whole main loop. -/
theorem update_weather_non200_unchanged (c : AnalogClock) (status : ℕ)
    (text : String) (frames : List Now) (h : status ≠ 200) :
    ((c.update_weather (FetchResult.response status text)).1).weather =
      c.weather ∧
    ((AnalogClock.init 250 (300, 300)
        (FetchResult.response status text)).1).weather = "Fetching..." ∧
    (programRun 250 (300, 300) (FetchResult.response status text)
        frames).1.weather = "Fetching..." := by
  refine ⟨by simp [AnalogClock.update_weather, h], ?_, ?_⟩
  · simp [AnalogClock.init, AnalogClock.update_weather, h]
  · show (runLoop (AnalogClock.init 250 (300, 300)
        (FetchResult.response status text)).1 frames).1.weather = "Fetching..."
    rw [runLoop_weather]
    simp [AnalogClock.init, AnalogClock.update_weather, h]

/-- Witness for C2 at status 500 with one loop frame. -/
theorem update_weather_non200_unchanged_witness :
    (500 : ℕ) ≠ 200 ∧
    (((sampleClock.update_weather
          (FetchResult.response 500 "Internal Server Error")).1).weather =
        sampleClock.weather ∧
      ((AnalogClock.init 250 (300, 300)
          (FetchResult.response 500 "Internal Server Error")).1).weather =
        "Fetching..." ∧
      (programRun 250 (300, 300)
          (FetchResult.response 500 "Internal Server Error")
          [now0]).1.weather = "Fetching...") :=
  ⟨by decide,
   update_weather_non200_unchanged sampleClock 500 "Internal Server Error"
     [now0] (by decide)⟩

/-- Claim C3: a 200 response stores the body with leading and trailing
whitespace removed. -/
theorem update_weather_200_stores_trimmed (c : AnalogClock) (status : ℕ)
    (text : String) (h : status = 200) :
    ((c.update_weather (FetchResult.response status text)).1).weather =
      pyStrip text := by
  subst h
  simp [AnalogClock.update_weather]

/-- Witness for C3 on the body `" +14°C Partly cloudy "`. -/
theorem update_weather_200_stores_trimmed_witness :
    (200 : ℕ) = 200 ∧
    ((sampleClock.update_weather
        (FetchResult.response 200 " +14°C Partly cloudy ")).1).weather =
      pyStrip " +14°C Partly cloudy " ∧
    pyStrip " +14°C Partly cloudy " = "+14°C Partly cloudy" :=
  ⟨rfl,
   update_weather_200_stores_trimmed sampleClock 200 " +14°C Partly cloudy " rfl,
   by decide⟩

/-- Claim C4: for every hour 0..23, `get_theme` returns the dark theme
exactly when the hour is ≥ 18 or < 6, and the light theme otherwise;
in particular 17 ↦ light, 18 ↦ dark, 5 ↦ dark, 6 ↦ light. -/
theorem get_theme_dark_iff (h : ℕ) (hh : h ≤ 23) :
    (get_theme h = THEMES_dark ↔ (18 ≤ h ∨ h < 6)) ∧
    (¬(18 ≤ h ∨ h < 6) → get_theme h = THEMES_light) ∧
    get_theme 17 = THEMES_light ∧ get_theme 18 = THEMES_dark ∧
    get_theme 5 = THEMES_dark ∧ get_theme 6 = THEMES_light := by
  refine ⟨?_, ?_, by decide, by decide, by decide, by decide⟩
  · unfold get_theme
    split_ifs with hc
    · simp [hc]
    · simp only [hc, iff_false]
      intro he
      exact absurd he (by decide)
  · intro hc
    unfold get_theme
    simp [hc]

/-- Witness for C4 at hour 18. -/
theorem get_theme_dark_iff_witness :
    (18 : ℕ) ≤ 23 ∧ get_theme 18 = THEMES_dark :=
  ⟨by decide, ((get_theme_dark_iff 18 (by decide)).1).mpr (Or.inl (by decide))⟩

/-- Claim C9: the whole program performs exactly one weather fetch (at
construction), and the weather field after any number of loop iterations
equals its post-construction value. -/
theorem weather_fetched_once (size : ℚ) (position : ℤ × ℤ)
    (fetch : FetchResult) (frames : List Now) :
    (programRun size position fetch frames).2 = [NetEvent.httpGet wttrURL] ∧
    (programRun size position fetch frames).1.weather =
      (AnalogClock.init size position fetch).1.weather := by
  constructor
  · show (AnalogClock.init size position fetch).2 ++
        (runLoop (AnalogClock.init size position fetch).1 frames).2 =
        [NetEvent.httpGet wttrURL]
    rw [runLoop_events, List.append_nil]
    rfl
  · exact runLoop_weather _ frames

/-- Claim C10: `draw` does not mutate the clock state; every field is
unchanged by a call. -/
theorem draw_preserves_state (c : AnalogClock) (current_hour : ℕ) :
    (c.draw current_hour).1 = c ∧
    (c.draw current_hour).1.size = c.size ∧
    (c.draw current_hour).1.position = c.position ∧
    (c.draw current_hour).1.hour = c.hour ∧
    (c.draw current_hour).1.minute = c.minute ∧
    (c.draw current_hour).1.second = c.second ∧
    (c.draw current_hour).1.milliseconds = c.milliseconds ∧
    (c.draw current_hour).1.current_date = c.current_date ∧
    (c.draw current_hour).1.weather = c.weather :=
  ⟨rfl, rfl, rfl, rfl, rfl, rfl, rfl, rfl, rfl⟩

/-- Claim C5: after `update`, the hour-hand angle passed to `draw_hand`
by `draw` (the 19th operation, index 18, of the trace) is
`(hour mod 12) * 30 + minute * 0.5` degrees, and it lies in `[0, 360)`. -/
theorem hour_hand_angle_spec (c : AnalogClock) (now : Now) (ch : ℕ)
    (h1 : now.hour ≤ 23) (h2 : now.minute ≤ 59) :
    (((c.update now).draw ch).2)[18]? =
      some (DrawOp.hand c.position
        (((now.hour % 12 : ℕ) : ℚ) * 30 + (now.minute : ℚ) * 0.5)
        (c.size * 0.5) 8 (get_theme ch).hand_hour) ∧
    0 ≤ ((now.hour % 12 : ℕ) : ℚ) * 30 + (now.minute : ℚ) * 0.5 ∧
    ((now.hour % 12 : ℕ) : ℚ) * 30 + (now.minute : ℚ) * 0.5 < 360 := by
  refine ⟨rfl, by positivity, ?_⟩
  have hm : ((now.hour % 12 : ℕ) : ℚ) ≤ 11 := by
    exact_mod_cast Nat.lt_succ_iff.mp (Nat.mod_lt _ (by norm_num))
  have hmin : ((now.minute : ℕ) : ℚ) ≤ 59 := by exact_mod_cast h2
  have : (0.5 : ℚ) = 1 / 2 := by norm_num
  rw [this]
  linarith

/-- Witness for C5 at 15:30. -/
theorem hour_hand_angle_spec_witness :
    (now0.hour ≤ 23 ∧ now0.minute ≤ 59) ∧
    ((((sampleClock.update now0).draw 12).2)[18]? =
        some (DrawOp.hand sampleClock.position
          (((now0.hour % 12 : ℕ) : ℚ) * 30 + (now0.minute : ℚ) * 0.5)
          (sampleClock.size * 0.5) 8 (get_theme 12).hand_hour) ∧
      0 ≤ ((now0.hour % 12 : ℕ) : ℚ) * 30 + (now0.minute : ℚ) * 0.5 ∧
      ((now0.hour % 12 : ℕ) : ℚ) * 30 + (now0.minute : ℚ) * 0.5 < 360) :=
  ⟨⟨by decide, by decide⟩,
   hour_hand_angle_spec sampleClock now0 12 (by decide) (by decide)⟩

/-- Claim C6: for a fixed second value, the second-hand angle
`(second + microsecond / 1e6) * 6` computed by `update` strictly
increases as the microsecond advances, and within a valid minute it
stays below 360 degrees. -/
theorem second_hand_angle_spec (c : AnalogClock) (now now' : Now)
    (hsec : now.second = now'.second) (hs : now'.second ≤ 59)
    (hlt : now.microsecond < now'.microsecond)
    (hub : now'.microsecond ≤ 999999) :
    (c.update now).second * 6 < (c.update now').second * 6 ∧
    (c.update now').second * 6 < 360 := by
  have e1 : (c.update now).second =
      (now.second : ℚ) + (now.microsecond : ℚ) / 1000000 := rfl
  have e2 : (c.update now').second =
      (now'.second : ℚ) + (now'.microsecond : ℚ) / 1000000 := rfl
  rw [e1, e2, hsec]
  have hq : (now.microsecond : ℚ) < (now'.microsecond : ℚ) := by
    exact_mod_cast hlt
  have hdiv : (now.microsecond : ℚ) / 1000000 <
      (now'.microsecond : ℚ) / 1000000 := by gcongr
  have hs' : ((now'.second : ℕ) : ℚ) ≤ 59 := by exact_mod_cast hs
  have hub' : ((now'.microsecond : ℕ) : ℚ) ≤ 999999 := by exact_mod_cast hub
  have hdub : (now'.microsecond : ℚ) / 1000000 ≤ 999999 / 1000000 := by gcongr
  constructor
  · linarith
  · linarith

/-- Witness for C6: microsecond 123456 versus 999999 within second 42. -/
theorem second_hand_angle_spec_witness :
    (now0.second = now1.second ∧ now1.second ≤ 59 ∧
      now0.microsecond < now1.microsecond ∧ now1.microsecond ≤ 999999) ∧
    ((sampleClock.update now0).second * 6 < (sampleClock.update now1).second * 6 ∧
      (sampleClock.update now1).second * 6 < 360) :=
  ⟨⟨by decide, by decide, by decide, by decide⟩,
   second_hand_angle_spec sampleClock now0 now1 (by decide) (by decide)
     (by decide) (by decide)⟩

/-- Claim C7: the trace of one `draw` call is exactly: background fill,
info text, 3 face circles, 12 hour marks at `i * 30` degrees, then for
each of the three hands one shadow segment immediately followed by the
hand, then the center cap circle. -/
theorem draw_sequence (c : AnalogClock) (ch : ℕ) :
    (c.draw ch).2 =
      [DrawOp.fill (get_theme ch).background,
       DrawOp.infoText (c.current_date ++ " | " ++ c.weather)
         (get_theme ch).text_color c.position.1 50,
       DrawOp.circle c.position c.size (get_theme ch).face_outer,
       DrawOp.circle c.position (c.size - 30) (get_theme ch).face_middle,
       DrawOp.circle c.position (c.size - 40) (get_theme ch).face_inner] ++
      ((List.range 12).map fun i =>
        DrawOp.mark c.position ((i : ℚ) * 30) (c.size - 20) (c.size - 40) 5
          (get_theme ch).mark_color) ++
      [DrawOp.handShadow c.position ((c.hour : ℚ) * 30 + (c.minute : ℚ) * 0.5)
         (c.size * 0.5) 8 (get_theme ch).shadow 5,
       DrawOp.hand c.position ((c.hour : ℚ) * 30 + (c.minute : ℚ) * 0.5)
         (c.size * 0.5) 8 (get_theme ch).hand_hour,
       DrawOp.handShadow c.position ((c.minute : ℚ) * 6) (c.size * 0.7) 6
         (get_theme ch).shadow 5,
       DrawOp.hand c.position ((c.minute : ℚ) * 6) (c.size * 0.7) 6
         (get_theme ch).hand_minute,
       DrawOp.handShadow c.position (c.second * 6) (c.size * 0.9) 3
         (get_theme ch).shadow 5,
       DrawOp.hand c.position (c.second * 6) (c.size * 0.9) 3
         (get_theme ch).hand_second,
       DrawOp.circle c.position 10 (get_theme ch).face_outer] := rfl

/-- Claim C8: the three hands are radial segments of lengths 0.5, 0.7
and 0.9 times the clock size, widths 8, 6 and 3, in the theme's
`hand_hour`, `hand_minute` and `hand_second` colors, and each is
immediately preceded (indices 17/19/21 before 18/20/22) by its shadow
segment in the theme shadow color at offset 5. -/
theorem hand_draw_parameters (c : AnalogClock) (ch : ℕ) :
    ((c.draw ch).2)[17]? =
      some (DrawOp.handShadow c.position
        ((c.hour : ℚ) * 30 + (c.minute : ℚ) * 0.5) (c.size * 0.5) 8
        (get_theme ch).shadow 5) ∧
    ((c.draw ch).2)[18]? =
      some (DrawOp.hand c.position
        ((c.hour : ℚ) * 30 + (c.minute : ℚ) * 0.5) (c.size * 0.5) 8
        (get_theme ch).hand_hour) ∧
    ((c.draw ch).2)[19]? =
      some (DrawOp.handShadow c.position ((c.minute : ℚ) * 6) (c.size * 0.7) 6
        (get_theme ch).shadow 5) ∧
    ((c.draw ch).2)[20]? =
      some (DrawOp.hand c.position ((c.minute : ℚ) * 6) (c.size * 0.7) 6
        (get_theme ch).hand_minute) ∧
    ((c.draw ch).2)[21]? =
      some (DrawOp.handShadow c.position (c.second * 6) (c.size * 0.9) 3
        (get_theme ch).shadow 5) ∧
    ((c.draw ch).2)[22]? =
      some (DrawOp.hand c.position (c.second * 6) (c.size * 0.9) 3
        (get_theme ch).hand_second) :=
  ⟨rfl, rfl, rfl, rfl, rfl, rfl⟩

end AnalogClockRepo
